import Mathlib

/-!
# Verification of the dual-camera capture core

A shallow embedding, in Lean 4, of the parts of the dual-camera capture
application that its design specification makes claims about:

* the frame compositor (`src/canvas.ts`): cover-crop geometry, output
  surface sizing, and picture-in-picture overlay placement;
* the camera provider (`CameraProvider.tsx` and `src/getCameras.ts`):
  stream lifecycle events under the iOS single-stream constraint, the
  main/overlay role swap, and the background/foreground pause/resume cycle;
* the sequential capture mode (`src/hooks/useSequentialCaptureMode.ts`):
  the step state machine 0/1/2;
* the overlay drag controller (`src/hooks/useOverlayPosition.ts`):
  drag/tap disambiguation and corner snapping;
* the capture transition orchestrator (`src/CaptureAnimation.ts`,
  `playCaptureAnimation`): the event order of the view-transition hand-off.

Numbers that the source manipulates as JavaScript floats are modelled as
rationals (`ℚ`); the arguments of every claim stay well inside the range
where float arithmetic on the concrete inputs is exact or where only the
algebraic shape of the formula matters.  `Math.round` is modelled by
Mathlib's `round` (both round halves toward positive infinity).  DOM device
identifiers (strings in the source) are modelled as naturals.
-/

/-! ## Frame compositor (`src/canvas.ts`) -/

/-- The four overlay anchor corners (`Corner` in `src/state/cameraSignals.ts`). -/
inductive Corner
  | topLeft
  | topRight
  | bottomLeft
  | bottomRight
deriving DecidableEq, Repr

/-- Source crop region returned by `calculateCoverCrop`. -/
structure CropRegion where
  sx : ℚ
  sy : ℚ
  sw : ℚ
  sh : ℚ
deriving DecidableEq, Repr

/-- `calculateCoverCrop` from `src/canvas.ts` (lines 18-44): the portion of
the source visible under `object-fit: cover`.  The source computes
`sw = srcHeight * viewportAspect` and then `sx = (srcWidth - sw) / 2`
(and symmetrically in the other branch); the expressions below are those
substituted values. -/
def calculateCoverCrop (srcWidth srcHeight viewportWidth viewportHeight : ℚ) :
    CropRegion :=
  let srcAspect := srcWidth / srcHeight
  let viewportAspect := viewportWidth / viewportHeight
  if viewportAspect < srcAspect then
    -- Source is wider - crop horizontally
    { sx := (srcWidth - srcHeight * viewportAspect) / 2
      sy := 0
      sw := srcHeight * viewportAspect
      sh := srcHeight }
  else
    -- Source is taller - crop vertically
    { sx := 0
      sy := (srcHeight - srcWidth / viewportAspect) / 2
      sw := srcWidth
      sh := srcWidth / viewportAspect }

/-- The scale factor `Math.max(srcWidth / viewportWidth, srcHeight /
viewportHeight, 1)` from `drawVideoToCanvas` (cover mode). -/
def coverScale (srcWidth srcHeight viewportWidth viewportHeight : ℚ) : ℚ :=
  max (max (srcWidth / viewportWidth) (srcHeight / viewportHeight)) 1

/-- Dimensions of the `OffscreenCanvas` allocated by `drawVideoToCanvas`. -/
structure CanvasDims where
  width : ℤ
  height : ℤ
deriving DecidableEq, Repr

/-- Output surface dimensions chosen by `drawVideoToCanvas`
(`src/canvas.ts` lines 65-82) in `"cover"` mode:
`Math.round(viewport * scale)` in each dimension. -/
def drawVideoToCanvasCoverDims (viewportWidth viewportHeight srcWidth srcHeight : ℚ) :
    CanvasDims :=
  let scale := coverScale srcWidth srcHeight viewportWidth viewportHeight
  { width := round (viewportWidth * scale)
    height := round (viewportHeight * scale) }

/-- Geometry computed by `drawOverlayOnMainCanvas` (`src/canvas.ts`
lines 140-178): every field the drawing code derives before painting the
overlay.  `0.25` is written `1/4` (exact in both floats and `ℚ`). -/
structure OverlayPlacement where
  scale : ℚ
  overlayWidth : ℚ
  overlayHeight : ℚ
  margin : ℚ
  bottomMargin : ℚ
  borderRadius : ℚ
  overlayX : ℚ
  overlayY : ℚ
deriving DecidableEq, Repr

/-- The placement computation of `drawOverlayOnMainCanvas`, for a base
(main) canvas of size `mainWidth × mainHeight`, the preview viewport width
`viewportWidth`, and the requested `corner`. -/
def drawOverlayPlacement (mainWidth mainHeight viewportWidth : ℚ) (corner : Corner) :
    OverlayPlacement :=
  let scale := mainWidth / viewportWidth
  let overlayWidth := mainWidth * (1 / 4)
  -- Overlay height matches main video's viewport aspect ratio
  let overlayHeight := (mainHeight / mainWidth) * overlayWidth
  let margin := 20 * scale
  let bottomMargin := 100 * scale
  let borderRadius := 16 * scale
  let pos : ℚ × ℚ :=
    match corner with
    | Corner.topLeft => (margin, margin)
    | Corner.topRight => (mainWidth - overlayWidth - margin, margin)
    | Corner.bottomLeft => (margin, mainHeight - overlayHeight - bottomMargin)
    | Corner.bottomRight =>
        (mainWidth - overlayWidth - margin, mainHeight - overlayHeight - bottomMargin)
  { scale := scale
    overlayWidth := overlayWidth
    overlayHeight := overlayHeight
    margin := margin
    bottomMargin := bottomMargin
    borderRadius := borderRadius
    overlayX := pos.1
    overlayY := pos.2 }

/-! ## Camera registry and stream lifecycle
(`src/getCameras.ts`, `CameraProvider.tsx`) -/

/-- Facing mode of a camera (`FacingMode` in `src/getCameras.ts`). -/
inductive FacingMode
  | environment
  | user
deriving DecidableEq, Repr

/-- The `Camera` class of `src/getCameras.ts`, minus its mutable cached
stream: the cached-stream field is tracked separately (per device id) in
`ProviderState.liveIds`, because camera objects are shared between the two
role slots.  `deviceId` (a string in the source) is modelled as `ℕ`. -/
structure Camera where
  deviceId : ℕ
  facingMode : Option FacingMode
deriving DecidableEq, Repr

/-- `Camera.shouldFlip`: front (user-facing) cameras are mirrored. -/
def Camera.shouldFlip (c : Camera) : Bool :=
  c.facingMode = some FacingMode.user

/-- A primitive stream-lifecycle event: `acquire i` is a completed
`getUserMedia`/`getStream()` call for device `i` (after which device `i`
holds a live stream), `release i` is `Camera.stop()` on device `i`. -/
inductive StreamEv
  | acquire (id : ℕ)
  | release (id : ℕ)
deriving DecidableEq, Repr

/-- Effect of one stream event on the set of device ids holding a live
stream.  Acquisition is idempotent (`getStream` returns the cached stream
when one is live) and `stop()` on an already-stopped camera is a no-op. -/
def applyEv (live : Finset ℕ) : StreamEv → Finset ℕ
  | StreamEv.acquire i => insert i live
  | StreamEv.release i => live.erase i

/-- Final live set after a list of stream events. -/
def applyEvents (init : Finset ℕ) (evs : List StreamEv) : Finset ℕ :=
  evs.foldl applyEv init

/-- Every intermediate live set (initial state included) reached while a
list of stream events executes. -/
def streamStates (init : Finset ℕ) : List StreamEv → List (Finset ℕ)
  | [] => [init]
  | e :: rest => init :: streamStates (applyEv init e) rest

/-- The stream events of one acquisition attempt that succeeds during
`getCameras`: the stream is obtained, and on iOS it is immediately stopped
again before the next attempt (`if (isIOS) camera.stop()`). -/
def acquireAttemptEvents (ios : Bool) (id : ℕ) : List StreamEv :=
  if ios then [StreamEv.acquire id, StreamEv.release id]
  else [StreamEv.acquire id]

/-- Stream events of the Step-2 fallback loop of `getCameras`
(`src/getCameras.ts` lines 129-158): walk the enumerated devices, skip
ids already claimed, attempt acquisition of the rest (`ok` records whether
`getUserMedia` succeeds for that device), and break once two cameras are
held.  `used` and `count` carry the claimed ids and the number of cameras
held so far. -/
def fallbackEvents (ios : Bool) (used : List ℕ) (count : ℕ) :
    List (ℕ × Bool) → List StreamEv
  | [] => []
  | (d, ok) :: rest =>
      if d ∈ used then fallbackEvents ios used count rest
      else if ok then
        acquireAttemptEvents ios d ++
          (if 2 ≤ count + 1 then [] else fallbackEvents ios (d :: used) (count + 1) rest)
      else fallbackEvents ios used count rest

/-- Stream events of `getCameras` (`src/getCameras.ts` lines 89-163).
`envOk`/`userOk` say whether the facing-mode acquisitions of Step 1
succeed (with resulting device ids `envId`/`userId`), and `devices` is the
enumerated device list of Step 2 with each device's acquisition outcome. -/
def getCamerasEvents (ios envOk userOk : Bool) (envId userId : ℕ)
    (devices : List (ℕ × Bool)) : List StreamEv :=
  (if envOk then acquireAttemptEvents ios envId else []) ++
  (if userOk then acquireAttemptEvents ios userId else []) ++
  (if (if envOk then 1 else 0) + (if userOk then 1 else 0) < 2 then
    fallbackEvents ios
      ((if envOk then [envId] else []) ++ (if userOk then [userId] else []))
      ((if envOk then 1 else 0) + (if userOk then 1 else 0)) devices
   else [])

/-- State owned by `CameraProvider` (`CameraProvider.tsx`): the two role
slot signals, the iOS single-stream flag, the set of device ids holding a
live stream, the stream bound to each video element (`srcObject`,
identified by the device id it came from), and the mirror-orientation
class of each video element. -/
structure ProviderState where
  ios : Bool
  mainCam : Option Camera
  overlayCam : Option Camera
  liveIds : Finset ℕ
  mainSrc : Option ℕ
  overlaySrc : Option ℕ
  mainMirror : Bool
  overlayMirror : Bool

/-- `updateOrientation` (`CameraProvider.tsx` lines 73-98): recompute each
slot's mirror flag strictly from its currently assigned camera. -/
def updateOrientation (s : ProviderState) : ProviderState :=
  { s with
    mainMirror := (s.mainCam.map Camera.shouldFlip).getD false
    overlayMirror := (s.overlayCam.map Camera.shouldFlip).getD false }

/-- The singleton of the main slot's device id (empty when no main camera):
under the iOS constraint only the main slot's camera may be live. -/
def mainIds (s : ProviderState) : Finset ℕ :=
  match s.mainCam with
  | some m => {m.deviceId}
  | none => ∅

/-- Stream events of `swapCameras` once the overlay slot is known occupied:
on iOS the old main is stopped first (`main?.stop()`), then the new main's
stream is acquired; on desktop both slots' streams are (re)acquired with no
stop. -/
def swapStreamEvents (ios : Bool) (oldMain : Option Camera) (o : Camera) :
    List StreamEv :=
  if ios then
    (match oldMain with
     | some m => [StreamEv.release m.deviceId]
     | none => []) ++ [StreamEv.acquire o.deviceId]
  else
    StreamEv.acquire o.deviceId ::
      (match oldMain with
       | some m => [StreamEv.acquire m.deviceId]
       | none => [])

/-- Stream events of a `swapCameras()` call (empty when it early-returns
because the overlay slot is empty). -/
def swapCamerasEvents (s : ProviderState) : List StreamEv :=
  match s.overlayCam with
  | none => []
  | some o => swapStreamEvents s.ios s.mainCam o

/-- `swapCameras` (`CameraProvider.tsx` lines 116-157): early return when
no overlay camera; otherwise exchange the two slot signals, perform the
platform-dependent stream work, rebind the video elements (`srcObject`),
and reconcile mirror orientation. -/
def swapCameras (s : ProviderState) : ProviderState :=
  match s.overlayCam with
  | none => s
  | some o =>
      let oldMain := s.mainCam
      updateOrientation
        { s with
          mainCam := some o
          overlayCam := oldMain
          liveIds := applyEvents s.liveIds (swapStreamEvents s.ios oldMain o)
          mainSrc := some o.deviceId
          overlaySrc := if s.ios then none else oldMain.map Camera.deviceId }

/-- Stream events of `stopAllStreams` (`CameraProvider.tsx` lines 171-182):
stop whatever camera sits in each slot. -/
def stopAllEvents (s : ProviderState) : List StreamEv :=
  (match s.mainCam with
   | some m => [StreamEv.release m.deviceId]
   | none => []) ++
  (match s.overlayCam with
   | some o => [StreamEv.release o.deviceId]
   | none => [])

/-- `stopAllStreams`: stop both slots' cameras and clear both video
bindings. -/
def stopAllStreams (s : ProviderState) : ProviderState :=
  { s with
    liveIds := applyEvents s.liveIds (stopAllEvents s)
    mainSrc := none
    overlaySrc := none }

/-- Stream events of `resumeAllStreams` (`CameraProvider.tsx` lines
184-203): re-acquire the main slot's stream, and the overlay slot's only
off-iOS (`overlay && !ios`). -/
def resumeEvents (s : ProviderState) : List StreamEv :=
  (match s.mainCam with
   | some m => [StreamEv.acquire m.deviceId]
   | none => []) ++
  (match s.overlayCam with
   | some o => if s.ios then [] else [StreamEv.acquire o.deviceId]
   | none => [])

/-- `resumeAllStreams`: rebind the video elements from the re-acquired
streams and reconcile orientation. -/
def resumeAllStreams (s : ProviderState) : ProviderState :=
  updateOrientation
    { s with
      liveIds := applyEvents s.liveIds (resumeEvents s)
      mainSrc :=
        match s.mainCam with
        | some m => some m.deviceId
        | none => s.mainSrc
      overlaySrc :=
        match s.overlayCam with
        | some o => if s.ios then s.overlaySrc else some o.deviceId
        | none => s.overlaySrc }

/-- Stream events of one background/foreground round trip: the
`visibilitychange` handler runs `stopAllStreams` on hide and
`resumeAllStreams` on show. -/
def visibilityCycleEvents (s : ProviderState) : List StreamEv :=
  stopAllEvents s ++ resumeEvents (stopAllStreams s)

/-! ## Sequential capture mode (`src/hooks/useSequentialCaptureMode.ts`) -/

/-- The state the sequential capture mode reads and writes: the camera
provider state plus the signals `sequentialStep`, `capturedOverlay`,
`capturedImage` and `captureDialogOpen` (`src/state/cameraSignals.ts`,
`src/state/uiSignals.ts`), and whether the preview videos are paused.
Captured canvases are identified by the device id of the camera whose
frame they froze. -/
structure SeqState where
  provider : ProviderState
  sequentialStep : ℕ
  capturedOverlay : Option ℕ
  capturedImage : Option ℕ
  captureDialogOpen : Bool
  videosPaused : Bool

/-- `hasDualCameras` (`src/state/cameraSignals.ts`): the overlay slot is
occupied. -/
def hasDualCameras (s : SeqState) : Bool :=
  s.provider.overlayCam.isSome

/-- `captureOverlayPhoto` (`useSequentialCaptureMode.ts` lines 22-69):
early return when no main camera video; otherwise freeze the main video
into `capturedOverlay`, run the capture animation whose flip callback
shows the preview and calls `swapCameras()`, then set the step to 2.
The video elements are modelled as always mounted, so
`getMainCameraVideo()` is `null` exactly when the main slot is empty. -/
def captureOverlayPhoto (s : SeqState) : SeqState :=
  match s.provider.mainCam with
  | none => s
  | some cam =>
      let s1 := { s with capturedOverlay := some cam.deviceId }
      -- inside the view transition's flip callback
      let s2 := { s1 with provider := swapCameras s1.provider }
      { s2 with sequentialStep := 2 }

/-- `resetSequentialMode` (`useSequentialCaptureMode.ts` lines 123-142):
clear the captured overlay buffer, reset the step to 1, and swap the
cameras back to restore the pre-sequence roles. -/
def resetSequentialMode (s : SeqState) : SeqState :=
  { s with
    capturedOverlay := none
    sequentialStep := 1
    provider := swapCameras s.provider }

/-- `captureMainPhoto` (`useSequentialCaptureMode.ts` lines 71-121):
early return when no main camera video; otherwise freeze the main video,
composite the captured overlay onto it when one exists, open the capture
dialog inside the animation's flip callback, and reset the sequential
state when dual cameras exist. -/
def captureMainPhoto (s : SeqState) : SeqState :=
  match s.provider.mainCam with
  | none => s
  | some cam =>
      let s1 := { s with
        capturedImage := some cam.deviceId
        captureDialogOpen := true }
      if hasDualCameras s1 then resetSequentialMode s1 else s1

/-- `capture` (`useSequentialCaptureMode.ts` lines 144-163): pause the
videos, then dispatch on the current step; step 1 resumes playback
immediately after the overlay shot, the other steps leave the videos
paused. -/
def seqCapture (s : SeqState) : SeqState :=
  let s1 := { s with videosPaused := true }
  if s1.sequentialStep = 0 then captureMainPhoto s1
  else if s1.sequentialStep = 1 then
    let s2 := captureOverlayPhoto s1
    { s2 with videosPaused := false }
  else if s1.sequentialStep = 2 then captureMainPhoto s1
  else s1

/-! ## Overlay drag controller (`src/hooks/useOverlayPosition.ts`) -/

/-- State held in the refs of `useOverlayPosition` plus the observable
effects the claims talk about: the free-form `style.left`/`style.top`
position (`none` models the cleared style `""`), the committed
`overlayCorner` signal, and a count of `onTap` invocations. -/
structure PointerState where
  isDragging : Bool
  hasMoved : Bool
  dragStartX : ℚ
  dragStartY : ℚ
  elementStartX : ℚ
  elementStartY : ℚ
  styleLeft : Option ℚ
  styleTop : Option ℚ
  overlayCorner : Corner
  tapCount : ℕ

/-- `handlePointerDown` (lines 97-116): ignore non-primary buttons,
otherwise record the start pointer position and the element's current
rectangle origin and enter the potential-drag state. -/
def handlePointerDown (s : PointerState) (button : ℕ) (x y rectLeft rectTop : ℚ) :
    PointerState :=
  if button ≠ 0 then s
  else
    { s with
      isDragging := true
      hasMoved := false
      dragStartX := x
      dragStartY := y
      elementStartX := rectLeft
      elementStartY := rectTop }

/-- `handlePointerMove` (lines 118-147).  The source compares
`Math.sqrt(dx² + dy²) > 10`; over nonnegative reals that is equivalent to
`dx² + dy² > 100`, which is the comparison used here (exact in `ℚ`). -/
def handlePointerMove (s : PointerState) (x y : ℚ) : PointerState :=
  if s.isDragging = false then s
  else
    let deltaX := x - s.dragStartX
    let deltaY := y - s.dragStartY
    let moved := s.hasMoved || decide (100 < deltaX ^ 2 + deltaY ^ 2)
    if moved then
      { s with
        hasMoved := true
        styleLeft := some (s.elementStartX + deltaX)
        styleTop := some (s.elementStartY + deltaY) }
    else s

/-- `findNearestCorner` (lines 32-40): quadrant test of the element center
against the window half-extents. -/
def findNearestCorner (windowWidth windowHeight x y : ℚ) : Corner :=
  let isLeft := decide (x < windowWidth / 2)
  let isTop := decide (y < windowHeight / 2)
  if isTop && isLeft then Corner.topLeft
  else if isTop && !isLeft then Corner.topRight
  else if !isTop && isLeft then Corner.bottomLeft
  else Corner.bottomRight

/-- `handlePointerUp` (lines 149-193).  In the drag branch the snap
animation runs and, after the 250 ms timeout matching the CSS transition,
the free-form position is cleared and the new corner committed to the
`overlayCorner` signal; that delayed commit is part of this transition
(nothing else runs between release and timeout in the modelled
interaction).  The element rectangle read back from the DOM has origin at
the free-form position set during the drag and extent `rectW × rectH`. -/
def handlePointerUp (s : PointerState) (windowWidth windowHeight rectW rectH : ℚ) :
    PointerState :=
  if s.isDragging = false then s
  else if s.hasMoved then
    let left := s.styleLeft.getD s.elementStartX
    let top := s.styleTop.getD s.elementStartY
    let centerX := left + rectW / 2
    let centerY := top + rectH / 2
    let newCorner := findNearestCorner windowWidth windowHeight centerX centerY
    { s with
      isDragging := false
      hasMoved := false
      styleLeft := none
      styleTop := none
      overlayCorner := newCorner }
  else
    { s with
      isDragging := false
      hasMoved := false
      tapCount := s.tapCount + 1 }

/-- `handlePointerCancel` (lines 195-213): revert to the committed corner
immediately. -/
def handlePointerCancel (s : PointerState) : PointerState :=
  if s.isDragging = false then s
  else
    { s with
      isDragging := false
      hasMoved := false
      styleLeft := none
      styleTop := none }

/-- Deliver a list of pointer-move positions in order. -/
def runMoves (s : PointerState) : List (ℚ × ℚ) → PointerState
  | [] => s
  | (x, y) :: rest => runMoves (handlePointerMove s x y) rest

/-- One full pointer interaction: pointer-down at `(downX, downY)`, the
given sequence of pointer moves, then pointer-up. -/
def runInteraction (s : PointerState) (button : ℕ) (downX downY rectLeft rectTop : ℚ)
    (moves : List (ℚ × ℚ)) (windowWidth windowHeight rectW rectH : ℚ) : PointerState :=
  handlePointerUp (runMoves (handlePointerDown s button downX downY rectLeft rectTop) moves)
    windowWidth windowHeight rectW rectH

/-! ## Capture transition orchestrator (`playCaptureAnimation`,
`src/CaptureAnimation.ts` lines 103-142) -/

/-- Observable steps of `playCaptureAnimation`, in program order:
`stagePrepare` sizes the staging canvas and draws the source into it,
`stageShow` makes it visible (`classList.add "active"` plus the
view-transition name), `paintWait` is the `afterFrameAsync()` suspension
until the frame has rasterized, `transitionStart` is the
`document.startViewTransition` call, `stageHide` and `reveal` happen
synchronously inside the transition's flip callback, `transitionFinished`
is the `transition.finished` await, and `stageCleanup` clears the staging
canvas. -/
inductive TransitionEv
  | stagePrepare
  | stageShow
  | paintWait
  | transitionStart
  | stageHide
  | reveal
  | transitionFinished
  | stageCleanup
deriving DecidableEq, Repr

/-- The body of the flip callback passed to `startViewTransition`: hide
the staging canvas, then invoke `showDestination`. -/
def flipCallbackEvents : List TransitionEv :=
  [TransitionEv.stageHide, TransitionEv.reveal]

/-- Event trace of one `playCaptureAnimation` call, parametrized by
whether `document.startViewTransition` exists and whether the staging
`canvasElement` argument is non-null. -/
def playCaptureAnimationEvents (viewTransitionsAvailable canvasElementPresent : Bool) :
    List TransitionEv :=
  if !viewTransitionsAvailable || !canvasElementPresent then
    [TransitionEv.reveal]
  else
    [TransitionEv.stagePrepare, TransitionEv.stageShow, TransitionEv.paintWait,
      TransitionEv.transitionStart] ++ flipCallbackEvents ++
      [TransitionEv.transitionFinished, TransitionEv.stageCleanup]

/-! ## Invariant machinery -/

/-- Event lists that are a concatenation of acquire/release pairs on one
device: the shape every iOS `getCameras` acquisition attempt produces. -/
inductive PairedEvs : List StreamEv → Prop
  | nil : PairedEvs []
  | cons (d : ℕ) {rest : List StreamEv} (h : PairedEvs rest) :
      PairedEvs (StreamEv.acquire d :: StreamEv.release d :: rest)

/-! ## Helper lemmas -/

theorem pairedEvs_append {l1 l2 : List StreamEv} (h1 : PairedEvs l1)
    (h2 : PairedEvs l2) : PairedEvs (l1 ++ l2) := by
  induction h1 with
  | nil => simpa using h2
  | cons d _ ih => exact PairedEvs.cons d ih

theorem pairedEvs_acquireAttempt (d : ℕ) : PairedEvs (acquireAttemptEvents true d) := by
  simp only [acquireAttemptEvents, if_pos]
  exact PairedEvs.cons d PairedEvs.nil

theorem pairedEvs_fallback (used : List ℕ) (count : ℕ) (devices : List (ℕ × Bool)) :
    PairedEvs (fallbackEvents true used count devices) := by
  induction devices generalizing used count with
  | nil => exact PairedEvs.nil
  | cons dv rest ih =>
      obtain ⟨d, ok⟩ := dv
      by_cases hd : d ∈ used
      · simpa [fallbackEvents, hd] using ih used count
      · by_cases hok : ok = true
        · simp only [fallbackEvents, hd, hok, if_false, if_true, ite_true, ite_false]
          refine pairedEvs_append (pairedEvs_acquireAttempt d) ?_
          split_ifs
          · exact PairedEvs.nil
          · exact ih _ _
        · simp only [Bool.not_eq_true] at hok
          simpa [fallbackEvents, hd, hok] using ih used count

theorem pairedEvs_getCameras (envOk userOk : Bool) (envId userId : ℕ)
    (devices : List (ℕ × Bool)) :
    PairedEvs (getCamerasEvents true envOk userOk envId userId devices) := by
  unfold getCamerasEvents
  refine pairedEvs_append (pairedEvs_append ?_ ?_) ?_
  · split_ifs
    · exact pairedEvs_acquireAttempt envId
    · exact PairedEvs.nil
  · split_ifs
    · exact pairedEvs_acquireAttempt userId
    · exact PairedEvs.nil
  · split_ifs <;> first
      | exact pairedEvs_fallback _ _ devices
      | exact PairedEvs.nil

theorem streamStates_pairedEvs {evs : List StreamEv} (h : PairedEvs evs) :
    ∀ t ∈ streamStates (∅ : Finset ℕ) evs, t.card ≤ 1 := by
  induction h with
  | nil =>
      intro t ht
      simp only [streamStates, List.mem_singleton] at ht
      simp [ht]
  | cons d rest ih =>
      intro t ht
      have hde : (insert d (∅ : Finset ℕ)).erase d = ∅ :=
        Finset.erase_insert (Finset.not_mem_empty d)
      simp only [streamStates, applyEv, hde, List.mem_cons] at ht
      rcases ht with h1 | h1 | h1
      · simp [h1]
      · simp [h1]
      · exact ih t h1

theorem card_le_one_of_subset_singleton {s : Finset ℕ} {a : ℕ} (h : s ⊆ {a}) :
    s.card ≤ 1 := by
  simpa using Finset.card_le_card h

theorem erase_eq_empty_of_subset_singleton {s : Finset ℕ} {a : ℕ} (h : s ⊆ {a}) :
    s.erase a = ∅ := by
  rcases Finset.subset_singleton_iff.mp h with h0 | h0 <;> simp [h0]

theorem card_le_one_of_subset_mainIds {s : ProviderState} (h : s.liveIds ⊆ mainIds s) :
    s.liveIds.card ≤ 1 := by
  cases hm : s.mainCam with
  | some m =>
      have h' : s.liveIds ⊆ {m.deviceId} := by simpa [mainIds, hm] using h
      exact card_le_one_of_subset_singleton h'
  | none =>
      have h' : s.liveIds ⊆ ∅ := by simpa [mainIds, hm] using h
      simp [Finset.subset_empty.mp h']

/-! ## Claim theorems -/

/-- C1: Under the single-stream constraint (iOS), at no point do both
slots hold a live stream simultaneously.  In each stream-touching
operation — device enumeration (`getCameras` with `isIOS = true`), role
swap (`swapCameras`) and the background-stop / foreground-resume cycle —
every intermediate live-stream set holds at most one device (each stop of
the previously live stream precedes the next acquisition), the
only-main-slot-live invariant is preserved, and the overlay video element
is never given a stream while the constraint is active. -/
theorem C1_single_stream_constraint :
    (∀ (envOk userOk : Bool) (envId userId : ℕ) (devices : List (ℕ × Bool)),
        ∀ t ∈ streamStates ∅ (getCamerasEvents true envOk userOk envId userId devices),
          t.card ≤ 1)
    ∧ (∀ s : ProviderState, s.ios = true → s.liveIds ⊆ mainIds s → s.overlaySrc = none →
        (∀ t ∈ streamStates s.liveIds (swapCamerasEvents s), t.card ≤ 1)
        ∧ (swapCameras s).liveIds ⊆ mainIds (swapCameras s)
        ∧ (swapCameras s).overlaySrc = none)
    ∧ (∀ s : ProviderState, s.ios = true → s.liveIds ⊆ mainIds s →
        (∀ t ∈ streamStates s.liveIds (visibilityCycleEvents s), t.card ≤ 1)
        ∧ (resumeAllStreams (stopAllStreams s)).liveIds ⊆
            mainIds (resumeAllStreams (stopAllStreams s))
        ∧ (stopAllStreams s).overlaySrc = none
        ∧ (resumeAllStreams (stopAllStreams s)).overlaySrc = none) := by
  refine ⟨?_, ?_, ?_⟩
  · intro envOk userOk envId userId devices t ht
    exact streamStates_pairedEvs (pairedEvs_getCameras envOk userOk envId userId devices) t ht
  · intro s hios hsub hosrc
    cases ho : s.overlayCam with
    | none =>
        have hcard := card_le_one_of_subset_mainIds hsub
        refine ⟨?_, ?_, ?_⟩
        · intro t ht
          simp only [swapCamerasEvents, ho, streamStates, List.mem_singleton] at ht
          exact ht ▸ hcard
        · simpa [swapCameras, ho] using hsub
        · simpa [swapCameras, ho] using hosrc
    | some o =>
        have hcard := card_le_one_of_subset_mainIds hsub
        cases hm : s.mainCam with
        | some m =>
            have hsub' : s.liveIds ⊆ {m.deviceId} := by simpa [mainIds, hm] using hsub
            have hE : s.liveIds.erase m.deviceId = ∅ :=
              erase_eq_empty_of_subset_singleton hsub'
            refine ⟨?_, ?_, ?_⟩
            · intro t ht
              simp only [swapCamerasEvents, ho, hm, swapStreamEvents, hios, if_true,
                List.cons_append, List.nil_append, streamStates, applyEv, hE,
                List.mem_cons, List.not_mem_nil, or_false] at ht
              rcases ht with h1 | h1 | h1 <;> simp [h1, hcard]
            · simp [swapCameras, ho, hm, hios, swapStreamEvents, applyEvents,
                applyEv, updateOrientation, mainIds, hE]
            · simp [swapCameras, ho, hios, updateOrientation]
        | none =>
            have hempty : s.liveIds = ∅ := by
              have h' : s.liveIds ⊆ ∅ := by simpa [mainIds, hm] using hsub
              exact Finset.subset_empty.mp h'
            refine ⟨?_, ?_, ?_⟩
            · intro t ht
              simp only [swapCamerasEvents, ho, hm, swapStreamEvents, hios, if_true,
                List.nil_append, streamStates, applyEv, hempty,
                List.mem_cons, List.not_mem_nil, or_false] at ht
              rcases ht with h1 | h1 <;> simp [h1]
            · simp [swapCameras, ho, hm, hios, swapStreamEvents, applyEvents,
                applyEv, updateOrientation, mainIds, hempty]
            · simp [swapCameras, ho, hios, updateOrientation]
  · intro s hios hsub
    cases hm : s.mainCam with
    | some m =>
        have hsub' : s.liveIds ⊆ {m.deviceId} := by simpa [mainIds, hm] using hsub
        have hE : s.liveIds.erase m.deviceId = ∅ :=
          erase_eq_empty_of_subset_singleton hsub'
        have hcard := card_le_one_of_subset_mainIds hsub
        cases ho : s.overlayCam with
        | some o =>
            refine ⟨?_, ?_, ?_, ?_⟩
            · intro t ht
              simp only [visibilityCycleEvents, stopAllEvents, resumeEvents,
                stopAllStreams, applyEvents, applyEv, hm, ho, hios, if_true,
                List.cons_append, List.nil_append, List.append_nil,
                streamStates, hE, Finset.erase_empty,
                List.mem_cons, List.not_mem_nil, or_false] at ht
              rcases ht with h1 | h1 | h1 | h1 <;> simp [h1, hcard]
            · simp [resumeAllStreams, stopAllStreams, stopAllEvents, resumeEvents,
                applyEvents, applyEv, updateOrientation, mainIds, hm, ho, hios, hE]
            · simp [stopAllStreams]
            · simp [resumeAllStreams, stopAllStreams, updateOrientation, ho, hios]
        | none =>
            refine ⟨?_, ?_, ?_, ?_⟩
            · intro t ht
              simp only [visibilityCycleEvents, stopAllEvents, resumeEvents,
                stopAllStreams, applyEvents, applyEv, hm, ho, hios,
                List.cons_append, List.nil_append, List.append_nil,
                streamStates, hE,
                List.mem_cons, List.not_mem_nil, or_false] at ht
              rcases ht with h1 | h1 | h1 <;> simp [h1, hcard]
            · simp [resumeAllStreams, stopAllStreams, stopAllEvents, resumeEvents,
                applyEvents, applyEv, updateOrientation, mainIds, hm, ho, hios, hE]
            · simp [stopAllStreams]
            · simp [resumeAllStreams, stopAllStreams, updateOrientation, ho, hios]
    | none =>
        have hempty : s.liveIds = ∅ := by
          have h' : s.liveIds ⊆ ∅ := by simpa [mainIds, hm] using hsub
          exact Finset.subset_empty.mp h'
        cases ho : s.overlayCam with
        | some o =>
            refine ⟨?_, ?_, ?_, ?_⟩
            · intro t ht
              simp only [visibilityCycleEvents, stopAllEvents, resumeEvents,
                stopAllStreams, applyEvents, applyEv, hm, ho, hios, if_true,
                List.cons_append, List.nil_append, List.append_nil,
                streamStates, hempty, Finset.erase_empty,
                List.mem_cons, List.not_mem_nil, or_false] at ht
              rcases ht with h1 | h1 <;> simp [h1]
            · simp [resumeAllStreams, stopAllStreams, stopAllEvents, resumeEvents,
                applyEvents, applyEv, updateOrientation, mainIds, hm, ho, hios, hempty]
            · simp [stopAllStreams]
            · simp [resumeAllStreams, stopAllStreams, updateOrientation, ho, hios]
        | none =>
            refine ⟨?_, ?_, ?_, ?_⟩
            · intro t ht
              simp only [visibilityCycleEvents, stopAllEvents, resumeEvents,
                stopAllStreams, applyEvents, applyEv, hm, ho,
                List.nil_append, List.append_nil,
                streamStates, hempty,
                List.mem_cons, List.not_mem_nil, or_false, List.mem_singleton] at ht
              simp [ht]
            · simp [resumeAllStreams, stopAllStreams, stopAllEvents, resumeEvents,
                applyEvents, applyEv, updateOrientation, mainIds, hm, ho, hempty]
            · simp [stopAllStreams]
            · simp [resumeAllStreams, stopAllStreams, updateOrientation, ho]

/-- A concrete iOS provider state: environment camera (device 0) holds the
main role with a live stream, user camera (device 1) holds the overlay
role with no stream. -/
def iosProviderExample : ProviderState :=
  { ios := true
    mainCam := some { deviceId := 0, facingMode := some FacingMode.environment }
    overlayCam := some { deviceId := 1, facingMode := some FacingMode.user }
    liveIds := {0}
    mainSrc := some 0
    overlaySrc := none
    mainMirror := false
    overlayMirror := false }

/-- Witness for C1 at concrete inputs: a two-camera iOS enumeration with
a fallback device (instantiated at the intermediate live set `{0}`), and
a swap and a visibility cycle from `iosProviderExample`. -/
theorem C1_single_stream_constraint_witness :
    ({0} : Finset ℕ).card ≤ 1
    ∧ ((swapCameras iosProviderExample).liveIds ⊆ mainIds (swapCameras iosProviderExample)
        ∧ (swapCameras iosProviderExample).overlaySrc = none)
    ∧ ((resumeAllStreams (stopAllStreams iosProviderExample)).liveIds ⊆
          mainIds (resumeAllStreams (stopAllStreams iosProviderExample))
        ∧ (stopAllStreams iosProviderExample).overlaySrc = none
        ∧ (resumeAllStreams (stopAllStreams iosProviderExample)).overlaySrc = none) :=
  ⟨C1_single_stream_constraint.1 true true 0 1 [(2, true)] {0} (by decide),
   ⟨(C1_single_stream_constraint.2.1 iosProviderExample rfl (by decide) rfl).2.1,
    (C1_single_stream_constraint.2.1 iosProviderExample rfl (by decide) rfl).2.2⟩,
   ⟨(C1_single_stream_constraint.2.2 iosProviderExample rfl (by decide)).2.1,
    (C1_single_stream_constraint.2.2 iosProviderExample rfl (by decide)).2.2.1,
    (C1_single_stream_constraint.2.2 iosProviderExample rfl (by decide)).2.2.2⟩⟩

/-- C8: For every starting role assignment (per the data model, the main
slot is occupied whenever a device exists), applying `swapCameras` twice
returns the main and overlay slots to their original device identities,
and a single application with an occupied overlay slot exactly exchanges
the two devices — neither camera object is destroyed or replaced. -/
theorem C8_swap_twice_restores_roles (s : ProviderState) (m : Camera)
    (hm : s.mainCam = some m) :
    (swapCameras (swapCameras s)).mainCam = s.mainCam
    ∧ (swapCameras (swapCameras s)).overlayCam = s.overlayCam
    ∧ (∀ o : Camera, s.overlayCam = some o →
        (swapCameras s).mainCam = some o ∧ (swapCameras s).overlayCam = some m) := by
  cases ho : s.overlayCam with
  | none =>
      refine ⟨?_, ?_, ?_⟩
      · simp [swapCameras, ho]
      · simp [swapCameras, ho]
      · intro o hco
        exact absurd hco (by simp)
  | some o =>
      refine ⟨?_, ?_, ?_⟩
      · simp [swapCameras, updateOrientation, ho, hm]
      · simp [swapCameras, updateOrientation, ho, hm]
      · intro o' hco
        obtain rfl : o = o' := by injection hco
        constructor <;> simp [swapCameras, updateOrientation, ho, hm]

/-- Concrete provider state for the C8 witness. -/
def swapExampleState : ProviderState :=
  { ios := false
    mainCam := some { deviceId := 4, facingMode := some FacingMode.environment }
    overlayCam := some { deviceId := 7, facingMode := some FacingMode.user }
    liveIds := {4, 7}
    mainSrc := some 4
    overlaySrc := some 7
    mainMirror := false
    overlayMirror := true }

/-- Witness for C8 at `swapExampleState`. -/
theorem C8_swap_twice_restores_roles_witness :
    (swapCameras (swapCameras swapExampleState)).mainCam = swapExampleState.mainCam
    ∧ (swapCameras (swapCameras swapExampleState)).overlayCam = swapExampleState.overlayCam
    ∧ ((swapCameras swapExampleState).mainCam =
          some { deviceId := 7, facingMode := some FacingMode.user }
        ∧ (swapCameras swapExampleState).overlayCam =
            some { deviceId := 4, facingMode := some FacingMode.environment }) :=
  ⟨(C8_swap_twice_restores_roles swapExampleState
      { deviceId := 4, facingMode := some FacingMode.environment } rfl).1,
   (C8_swap_twice_restores_roles swapExampleState
      { deviceId := 4, facingMode := some FacingMode.environment } rfl).2.1,
   (C8_swap_twice_restores_roles swapExampleState
      { deviceId := 4, facingMode := some FacingMode.environment } rfl).2.2
      { deviceId := 7, facingMode := some FacingMode.user } rfl⟩

/-- C10: `swapCameras()` with an empty overlay slot is a complete no-op:
it returns early, leaving the whole provider state (role assignment,
stream bindings, mirror flags) untouched and emitting no stream event. -/
theorem C10_swap_no_overlay_noop (s : ProviderState) (h : s.overlayCam = none) :
    swapCameras s = s ∧ swapCamerasEvents s = [] := by
  constructor <;> simp [swapCameras, swapCamerasEvents, h]

/-- Concrete single-camera provider state for the C10 witness. -/
def singleCamExampleState : ProviderState :=
  { ios := true
    mainCam := some { deviceId := 3, facingMode := some FacingMode.user }
    overlayCam := none
    liveIds := {3}
    mainSrc := some 3
    overlaySrc := none
    mainMirror := true
    overlayMirror := false }

/-- Witness for C10 at `singleCamExampleState`. -/
theorem C10_swap_no_overlay_noop_witness :
    swapCameras singleCamExampleState = singleCamExampleState
    ∧ swapCamerasEvents singleCamExampleState = [] :=
  C10_swap_no_overlay_noop singleCamExampleState rfl

theorem seqCapture_single_device {s : SeqState}
    (h1 : s.provider.overlayCam = none) (h2 : s.sequentialStep = 0) :
    (seqCapture s).provider.overlayCam = none
    ∧ (seqCapture s).sequentialStep = 0 := by
  cases hm : s.provider.mainCam with
  | none => simp [seqCapture, captureMainPhoto, h2, hm, h1]
  | some cam =>
      simp [seqCapture, captureMainPhoto, hasDualCameras, h2, hm, h1]

/-- C2: In Sequential mode with two devices, starting at step 1, two
`capture()` calls drive the step 1 → 2 → 1, clear `capturedOverlay` back
to `null`, and restore the pre-sequence main/overlay role assignment;
with only one device (step 0) the step stays 0 across every repeated
`capture()` call. -/
theorem C2_sequential_capture_cycle :
    (∀ (s : SeqState) (m o : Camera),
        s.provider.mainCam = some m → s.provider.overlayCam = some o →
        s.sequentialStep = 1 →
        (seqCapture s).sequentialStep = 2
        ∧ (seqCapture (seqCapture s)).sequentialStep = 1
        ∧ (seqCapture (seqCapture s)).capturedOverlay = none
        ∧ (seqCapture (seqCapture s)).provider.mainCam = some m
        ∧ (seqCapture (seqCapture s)).provider.overlayCam = some o)
    ∧ (∀ (s : SeqState) (n : ℕ),
        s.provider.overlayCam = none → s.sequentialStep = 0 →
        (seqCapture^[n] s).sequentialStep = 0) := by
  constructor
  · intro s m o hm ho hs
    refine ⟨?_, ?_, ?_, ?_, ?_⟩ <;>
      simp [seqCapture, captureOverlayPhoto, captureMainPhoto, resetSequentialMode,
        hasDualCameras, swapCameras, updateOrientation, hm, ho, hs]
  · intro s n h1 h2
    induction n generalizing s with
    | zero => simpa using h2
    | succ k ih =>
        rw [Function.iterate_succ_apply]
        exact ih (seqCapture s) (seqCapture_single_device h1 h2).1
          (seqCapture_single_device h1 h2).2

/-- Concrete dual-camera sequential state (step 1) for the C2 witness. -/
def seqDualExampleState : SeqState :=
  { provider :=
      { ios := true
        mainCam := some { deviceId := 0, facingMode := some FacingMode.environment }
        overlayCam := some { deviceId := 1, facingMode := some FacingMode.user }
        liveIds := {0}
        mainSrc := some 0
        overlaySrc := none
        mainMirror := false
        overlayMirror := false }
    sequentialStep := 1
    capturedOverlay := none
    capturedImage := none
    captureDialogOpen := false
    videosPaused := false }

/-- Concrete single-camera sequential state (step 0) for the C2 witness. -/
def seqSingleExampleState : SeqState :=
  { provider :=
      { ios := true
        mainCam := some { deviceId := 5, facingMode := some FacingMode.user }
        overlayCam := none
        liveIds := {5}
        mainSrc := some 5
        overlaySrc := none
        mainMirror := true
        overlayMirror := false }
    sequentialStep := 0
    capturedOverlay := none
    capturedImage := none
    captureDialogOpen := false
    videosPaused := false }

/-- Witness for C2: the dual-camera cycle from `seqDualExampleState` and
three repeated captures from `seqSingleExampleState`. -/
theorem C2_sequential_capture_cycle_witness :
    ((seqCapture seqDualExampleState).sequentialStep = 2
      ∧ (seqCapture (seqCapture seqDualExampleState)).sequentialStep = 1
      ∧ (seqCapture (seqCapture seqDualExampleState)).capturedOverlay = none
      ∧ (seqCapture (seqCapture seqDualExampleState)).provider.mainCam =
          some { deviceId := 0, facingMode := some FacingMode.environment }
      ∧ (seqCapture (seqCapture seqDualExampleState)).provider.overlayCam =
          some { deviceId := 1, facingMode := some FacingMode.user })
    ∧ (seqCapture^[3] seqSingleExampleState).sequentialStep = 0 :=
  ⟨C2_sequential_capture_cycle.1 seqDualExampleState
      { deviceId := 0, facingMode := some FacingMode.environment }
      { deviceId := 1, facingMode := some FacingMode.user } rfl rfl rfl,
   C2_sequential_capture_cycle.2 seqSingleExampleState 3 rfl rfl⟩

theorem round_le_round_of_le {x y : ℚ} (h : x ≤ y) : round x ≤ round y := by
  rw [round_eq, round_eq]
  exact Int.floor_le_floor (by linarith)

/-- C3 counterexample: for a 4000×3000 source and a 390×844 viewport the
crop width computed by `calculateCoverCrop` is exactly `3000 × 390/844 =
292500/211`, which is NOT the integer `round (3000 × 390/844) = 1386` the
claim asserts — the source never rounds the crop width. -/
theorem C3_cover_crop_counterexample :
    (calculateCoverCrop 4000 3000 390 844).sw ≠
      ((round ((3000 : ℚ) * (390 / 844)) : ℤ) : ℚ) := by
  norm_num [calculateCoverCrop, round_eq]

/-- C3 (amended): the cover-crop region follows the claimed case split —
wider-than-viewport sources keep full height and take width
`srcHeight × (viewportWidth/viewportHeight)` centred horizontally, the
others keep full width and take height
`srcWidth / (viewportWidth/viewportHeight)` centred vertically — and on
the 4000×3000 source with the 390×844 viewport the crop width is exactly
`3000 × 390/844` (not rounded), centred horizontally with full height. -/
theorem C3_cover_crop_region (srcW srcH vpW vpH : ℚ) :
    (calculateCoverCrop srcW srcH vpW vpH =
      (if vpW / vpH < srcW / srcH then
        { sx := (srcW - srcH * (vpW / vpH)) / 2
          sy := 0
          sw := srcH * (vpW / vpH)
          sh := srcH }
       else
        { sx := 0
          sy := (srcH - srcW / (vpW / vpH)) / 2
          sw := srcW
          sh := srcW / (vpW / vpH) }))
    ∧ (calculateCoverCrop 4000 3000 390 844).sw = 3000 * ((390 : ℚ) / 844)
    ∧ (calculateCoverCrop 4000 3000 390 844).sh = 3000
    ∧ (calculateCoverCrop 4000 3000 390 844).sx =
        (4000 - 3000 * ((390 : ℚ) / 844)) / 2
    ∧ (calculateCoverCrop 4000 3000 390 844).sy = 0 := by
  refine ⟨rfl, ?_, ?_, ?_, ?_⟩ <;> norm_num [calculateCoverCrop]

/-- C4 counterexample: for a 4000×3000 source and a 390×844 viewport the
output height is `round (844 × 4000/390) = 8656`, not the exact product
`844 × 4000/390 = 337600/39` the claim asserts (the source rounds), and
that height also exceeds the native height 3000, refuting "never
upsamples beyond the native stream resolution". -/
theorem C4_cover_output_counterexample :
    (((drawVideoToCanvasCoverDims 390 844 4000 3000).height : ℚ) ≠
      844 * coverScale 4000 3000 390 844)
    ∧ (3000 : ℤ) < (drawVideoToCanvasCoverDims 390 844 4000 3000).height := by
  constructor <;>
    norm_num [drawVideoToCanvasCoverDims, coverScale, round_eq]

/-- C4 (amended): in cover mode each output surface dimension equals the
corresponding viewport dimension times
`max (srcW/vpW) (srcH/vpH) 1`, rounded to the nearest integer
(`Math.round`); consequently the output is never smaller than the
viewport nor smaller than the native stream in either dimension (though
it can exceed the native dimension, as the counterexample shows). -/
theorem C4_cover_output_dims (vpW vpH srcW srcH : ℚ) :
    (drawVideoToCanvasCoverDims vpW vpH srcW srcH).width =
      round (vpW * coverScale srcW srcH vpW vpH)
    ∧ (drawVideoToCanvasCoverDims vpW vpH srcW srcH).height =
      round (vpH * coverScale srcW srcH vpW vpH)
    ∧ (0 < vpW → round srcW ≤ (drawVideoToCanvasCoverDims vpW vpH srcW srcH).width)
    ∧ (0 < vpH → round srcH ≤ (drawVideoToCanvasCoverDims vpW vpH srcW srcH).height)
    ∧ (0 ≤ vpW → round vpW ≤ (drawVideoToCanvasCoverDims vpW vpH srcW srcH).width)
    ∧ (0 ≤ vpH → round vpH ≤ (drawVideoToCanvasCoverDims vpW vpH srcW srcH).height) := by
  refine ⟨rfl, rfl, ?_, ?_, ?_, ?_⟩
  · intro h
    refine round_le_round_of_le ?_
    have hcancel : vpW * (srcW / vpW) = srcW := by
      field_simp
    calc srcW = vpW * (srcW / vpW) := hcancel.symm
      _ ≤ vpW * coverScale srcW srcH vpW vpH := by
          refine mul_le_mul_of_nonneg_left ?_ h.le
          exact le_trans (le_max_left _ _) (le_max_left _ _)
  · intro h
    refine round_le_round_of_le ?_
    have hcancel : vpH * (srcH / vpH) = srcH := by
      field_simp
    calc srcH = vpH * (srcH / vpH) := hcancel.symm
      _ ≤ vpH * coverScale srcW srcH vpW vpH := by
          refine mul_le_mul_of_nonneg_left ?_ h.le
          exact le_trans (le_max_right _ _) (le_max_left _ _)
  · intro h
    refine round_le_round_of_le ?_
    exact le_mul_of_one_le_right h (le_max_right _ _)
  · intro h
    refine round_le_round_of_le ?_
    exact le_mul_of_one_le_right h (le_max_right _ _)

/-- Witness for C4 (amended) at a 390×844 viewport with a 4000×3000
source. -/
theorem C4_cover_output_dims_witness :
    (0 : ℚ) < 390 ∧ (0 : ℚ) < 844
    ∧ (drawVideoToCanvasCoverDims 390 844 4000 3000).width =
        round ((390 : ℚ) * coverScale 4000 3000 390 844)
    ∧ round ((4000 : ℚ)) ≤ (drawVideoToCanvasCoverDims 390 844 4000 3000).width
    ∧ round ((3000 : ℚ)) ≤ (drawVideoToCanvasCoverDims 390 844 4000 3000).height
    ∧ round ((390 : ℚ)) ≤ (drawVideoToCanvasCoverDims 390 844 4000 3000).width
    ∧ round ((844 : ℚ)) ≤ (drawVideoToCanvasCoverDims 390 844 4000 3000).height :=
  ⟨by norm_num, by norm_num,
   (C4_cover_output_dims 390 844 4000 3000).1,
   (C4_cover_output_dims 390 844 4000 3000).2.2.1 (by norm_num),
   (C4_cover_output_dims 390 844 4000 3000).2.2.2.1 (by norm_num),
   (C4_cover_output_dims 390 844 4000 3000).2.2.2.2.1 (by norm_num),
   (C4_cover_output_dims 390 844 4000 3000).2.2.2.2.2 (by norm_num)⟩

/-- C5: every composited overlay placement uses
`scale = base.width / baseViewportW`, `overlayW = 0.25 × base.width`,
`overlayH = overlayW × base.height / base.width`, `margin = 20 × scale`,
`bottomMargin = 100 × scale` and `cornerRadius = 16 × scale`; with the
default top-left corner at scale 1 (surface width equal to the viewport
width) the overlay's top-left lands at (20, 20) with radius 16. -/
theorem C5_overlay_placement_constants (mainW mainH vpW : ℚ) (corner : Corner) :
    (drawOverlayPlacement mainW mainH vpW corner).scale = mainW / vpW
    ∧ (drawOverlayPlacement mainW mainH vpW corner).overlayWidth = mainW * (1 / 4)
    ∧ (drawOverlayPlacement mainW mainH vpW corner).overlayHeight =
        (drawOverlayPlacement mainW mainH vpW corner).overlayWidth * (mainH / mainW)
    ∧ (drawOverlayPlacement mainW mainH vpW corner).margin =
        20 * (drawOverlayPlacement mainW mainH vpW corner).scale
    ∧ (drawOverlayPlacement mainW mainH vpW corner).bottomMargin =
        100 * (drawOverlayPlacement mainW mainH vpW corner).scale
    ∧ (drawOverlayPlacement mainW mainH vpW corner).borderRadius =
        16 * (drawOverlayPlacement mainW mainH vpW corner).scale
    ∧ (mainW = vpW → vpW ≠ 0 →
        (drawOverlayPlacement mainW mainH vpW Corner.topLeft).overlayX = 20
        ∧ (drawOverlayPlacement mainW mainH vpW Corner.topLeft).overlayY = 20
        ∧ (drawOverlayPlacement mainW mainH vpW Corner.topLeft).borderRadius = 16) := by
  refine ⟨rfl, rfl, ?_, rfl, rfl, rfl, ?_⟩
  · simp only [drawOverlayPlacement]
    ring
  · intro heq hne
    subst heq
    have hone : mainW / mainW = 1 := div_self hne
    refine ⟨?_, ?_, ?_⟩ <;> simp [drawOverlayPlacement, hone]

/-- Witness for C5 at a 390-wide base surface matching a 390-wide
viewport (scale 1). -/
theorem C5_overlay_placement_constants_witness :
    (drawOverlayPlacement 390 844 390 Corner.topLeft).scale = (390 : ℚ) / 390
    ∧ (drawOverlayPlacement 390 844 390 Corner.topLeft).overlayWidth = 390 * (1 / 4)
    ∧ (drawOverlayPlacement 390 844 390 Corner.topLeft).overlayHeight =
        (drawOverlayPlacement 390 844 390 Corner.topLeft).overlayWidth * ((844 : ℚ) / 390)
    ∧ (drawOverlayPlacement 390 844 390 Corner.topLeft).margin =
        20 * (drawOverlayPlacement 390 844 390 Corner.topLeft).scale
    ∧ (drawOverlayPlacement 390 844 390 Corner.topLeft).bottomMargin =
        100 * (drawOverlayPlacement 390 844 390 Corner.topLeft).scale
    ∧ (drawOverlayPlacement 390 844 390 Corner.topLeft).borderRadius =
        16 * (drawOverlayPlacement 390 844 390 Corner.topLeft).scale
    ∧ ((drawOverlayPlacement 390 844 390 Corner.topLeft).overlayX = 20
        ∧ (drawOverlayPlacement 390 844 390 Corner.topLeft).overlayY = 20
        ∧ (drawOverlayPlacement 390 844 390 Corner.topLeft).borderRadius = 16) :=
  ⟨(C5_overlay_placement_constants 390 844 390 Corner.topLeft).1,
   (C5_overlay_placement_constants 390 844 390 Corner.topLeft).2.1,
   (C5_overlay_placement_constants 390 844 390 Corner.topLeft).2.2.1,
   (C5_overlay_placement_constants 390 844 390 Corner.topLeft).2.2.2.1,
   (C5_overlay_placement_constants 390 844 390 Corner.topLeft).2.2.2.2.1,
   (C5_overlay_placement_constants 390 844 390 Corner.topLeft).2.2.2.2.2.1,
   (C5_overlay_placement_constants 390 844 390 Corner.topLeft).2.2.2.2.2.2 rfl
     (by norm_num)⟩

/-- C6 counterexample: with a 100×100 base surface and a 10-pixel-wide
viewport (scale 10), the top-left placement puts the overlay's left edge
at `20 × 10 = 200`, entirely outside the 100-pixel-wide base — the
placement formulas do NOT keep the overlay in bounds for every scale
factor. -/
theorem C6_overlay_bounds_counterexample :
    ¬ ((drawOverlayPlacement 100 100 10 Corner.topLeft).overlayX +
        (drawOverlayPlacement 100 100 10 Corner.topLeft).overlayWidth ≤ 100) := by
  norm_num [drawOverlayPlacement]

/-- C6 (amended): the overlay rectangle stays within the base surface for
every corner provided the base is positive-sized and large enough
relative to the scaled margins: `20·scale + base.width/4 ≤ base.width`
(horizontal) and `100·scale + base.height/4 ≤ base.height` (vertical,
`100·scale` being the bottom margin).  Small viewports or extreme aspect
ratios violate these bounds, as the counterexample shows. -/
theorem C6_overlay_in_bounds (mainW mainH vpW : ℚ) (corner : Corner)
    (hW : 0 < mainW) (hH : 0 < mainH) (hv : 0 < vpW)
    (hx : 20 * (mainW / vpW) + mainW * (1 / 4) ≤ mainW)
    (hy : 100 * (mainW / vpW) + mainH * (1 / 4) ≤ mainH) :
    0 ≤ (drawOverlayPlacement mainW mainH vpW corner).overlayX
    ∧ 0 ≤ (drawOverlayPlacement mainW mainH vpW corner).overlayY
    ∧ (drawOverlayPlacement mainW mainH vpW corner).overlayX +
        (drawOverlayPlacement mainW mainH vpW corner).overlayWidth ≤ mainW
    ∧ (drawOverlayPlacement mainW mainH vpW corner).overlayY +
        (drawOverlayPlacement mainW mainH vpW corner).overlayHeight ≤ mainH := by
  have hs : 0 < mainW / vpW := div_pos hW hv
  have hOH : mainH / mainW * (mainW * (1 / 4)) = mainH * (1 / 4) := by
    field_simp
  cases corner <;>
    refine ⟨?_, ?_, ?_, ?_⟩ <;>
      simp only [drawOverlayPlacement] <;>
        linarith [hs, hx, hy, hOH]

/-- Witness for C6 (amended) at a 400×800 base with a 400-wide viewport
(scale 1), bottom-right corner. -/
theorem C6_overlay_in_bounds_witness :
    (0 : ℚ) < 400 ∧ (0 : ℚ) < 800
    ∧ 20 * ((400 : ℚ) / 400) + 400 * (1 / 4) ≤ 400
    ∧ 100 * ((400 : ℚ) / 400) + 800 * (1 / 4) ≤ 800
    ∧ (0 ≤ (drawOverlayPlacement 400 800 400 Corner.bottomRight).overlayX
        ∧ 0 ≤ (drawOverlayPlacement 400 800 400 Corner.bottomRight).overlayY
        ∧ (drawOverlayPlacement 400 800 400 Corner.bottomRight).overlayX +
            (drawOverlayPlacement 400 800 400 Corner.bottomRight).overlayWidth ≤ 400
        ∧ (drawOverlayPlacement 400 800 400 Corner.bottomRight).overlayY +
            (drawOverlayPlacement 400 800 400 Corner.bottomRight).overlayHeight ≤ 800) :=
  ⟨by norm_num, by norm_num, by norm_num, by norm_num,
   C6_overlay_in_bounds 400 800 400 Corner.bottomRight
     (by norm_num) (by norm_num) (by norm_num) (by norm_num) (by norm_num)⟩

theorem handlePointerMove_keepDragging (s : PointerState) (x y : ℚ) :
    (handlePointerMove s x y).isDragging = s.isDragging
    ∧ (handlePointerMove s x y).dragStartX = s.dragStartX
    ∧ (handlePointerMove s x y).dragStartY = s.dragStartY
    ∧ (handlePointerMove s x y).overlayCorner = s.overlayCorner
    ∧ (handlePointerMove s x y).tapCount = s.tapCount := by
  simp only [handlePointerMove]
  split_ifs <;> simp

theorem handlePointerMove_small (s : PointerState) (x y : ℚ)
    (hm : s.hasMoved = false)
    (h : (x - s.dragStartX) ^ 2 + (y - s.dragStartY) ^ 2 ≤ 100) :
    handlePointerMove s x y = s := by
  have h' : ¬ (100 < (x - s.dragStartX) ^ 2 + (y - s.dragStartY) ^ 2) := not_lt.mpr h
  simp [handlePointerMove, hm, h']

theorem handlePointerMove_hasMoved_mono (s : PointerState) (x y : ℚ)
    (h : s.hasMoved = true) : (handlePointerMove s x y).hasMoved = true := by
  simp only [handlePointerMove, h]
  split_ifs <;> simp_all

theorem handlePointerMove_latch (s : PointerState) (x y : ℚ)
    (hd : s.isDragging = true)
    (h : 100 < (x - s.dragStartX) ^ 2 + (y - s.dragStartY) ^ 2) :
    (handlePointerMove s x y).hasMoved = true := by
  simp [handlePointerMove, hd, h]

theorem runMoves_preserved (s : PointerState) (moves : List (ℚ × ℚ)) :
    (runMoves s moves).isDragging = s.isDragging
    ∧ (runMoves s moves).dragStartX = s.dragStartX
    ∧ (runMoves s moves).dragStartY = s.dragStartY
    ∧ (runMoves s moves).overlayCorner = s.overlayCorner
    ∧ (runMoves s moves).tapCount = s.tapCount := by
  induction moves generalizing s with
  | nil => exact ⟨rfl, rfl, rfl, rfl, rfl⟩
  | cons m rest ih =>
      obtain ⟨x, y⟩ := m
      have h1 := handlePointerMove_keepDragging s x y
      have h2 := ih (handlePointerMove s x y)
      simp only [runMoves]
      exact ⟨h2.1.trans h1.1, h2.2.1.trans h1.2.1, h2.2.2.1.trans h1.2.2.1,
        h2.2.2.2.1.trans h1.2.2.2.1, h2.2.2.2.2.trans h1.2.2.2.2⟩

theorem runMoves_all_small (s : PointerState) (moves : List (ℚ × ℚ))
    (hm : s.hasMoved = false)
    (hsmall : ∀ m ∈ moves, (m.1 - s.dragStartX) ^ 2 + (m.2 - s.dragStartY) ^ 2 ≤ 100) :
    runMoves s moves = s := by
  induction moves with
  | nil => rfl
  | cons m rest ih =>
      obtain ⟨x, y⟩ := m
      have hhead : (x - s.dragStartX) ^ 2 + (y - s.dragStartY) ^ 2 ≤ 100 :=
        hsmall (x, y) (List.mem_cons_self _ _)
      have heq : handlePointerMove s x y = s := handlePointerMove_small s x y hm hhead
      simp only [runMoves, heq]
      exact ih fun m hm' => hsmall m (List.mem_cons_of_mem _ hm')

theorem runMoves_hasMoved_mono (s : PointerState) (moves : List (ℚ × ℚ))
    (h : s.hasMoved = true) : (runMoves s moves).hasMoved = true := by
  induction moves generalizing s with
  | nil => exact h
  | cons m rest ih =>
      obtain ⟨x, y⟩ := m
      simp only [runMoves]
      exact ih (handlePointerMove s x y) (handlePointerMove_hasMoved_mono s x y h)

theorem runMoves_latches (s : PointerState) (moves : List (ℚ × ℚ))
    (hd : s.isDragging = true)
    (h : ∃ m ∈ moves, 100 < (m.1 - s.dragStartX) ^ 2 + (m.2 - s.dragStartY) ^ 2) :
    (runMoves s moves).hasMoved = true := by
  induction moves generalizing s with
  | nil =>
      rcases h with ⟨m, hmem, _⟩
      simp at hmem
  | cons m rest ih =>
      obtain ⟨x, y⟩ := m
      rcases h with ⟨m', hmem, hbig⟩
      rcases List.mem_cons.mp hmem with rfl | hmem'
      · simp only [runMoves]
        exact runMoves_hasMoved_mono _ rest (handlePointerMove_latch s x y hd hbig)
      · have hk := handlePointerMove_keepDragging s x y
        simp only [runMoves]
        refine ih (handlePointerMove s x y) (hk.1.trans hd) ?_
        exact ⟨m', hmem', by rw [hk.2.1, hk.2.2.1]; exact hbig⟩

/-- Idle pointer-controller state with the default top-left committed
corner. -/
def pointerInit : PointerState :=
  { isDragging := false
    hasMoved := false
    dragStartX := 0
    dragStartY := 0
    elementStartX := 0
    elementStartY := 0
    styleLeft := none
    styleTop := none
    overlayCorner := Corner.topLeft
    tapCount := 0 }

/-- C7 counterexample: a pointer-down at (0,0) followed by a move to
(10,0) — total displacement exactly 10 device pixels — still invokes the
tap callback on pointer-up, because the source compares the distance
strictly (`distance > DRAG_THRESHOLD` with `DRAG_THRESHOLD = 10`); the
claim says a displacement of 10 or more never invokes the tap callback. -/
theorem C7_tap_at_threshold_counterexample :
    (runInteraction pointerInit 0 0 0 0 0 [(10, 0)] 1000 1000 50 50).tapCount = 1
    ∧ ((10 : ℚ) - 0) ^ 2 + ((0 : ℚ) - 0) ^ 2 = 10 ^ 2 := by
  constructor
  · norm_num [runInteraction, handlePointerDown, runMoves, handlePointerMove,
      handlePointerUp, pointerInit]
  · norm_num

/-- C7 (amended): a pointer-down/up pair all of whose move displacements
are at most 10 device pixels (squared displacement ≤ 100) invokes the tap
callback exactly once and never changes the committed corner; an
interaction containing a move whose displacement exceeds 10 pixels
(squared displacement > 100) never invokes the tap callback; and no
pointer-move ever mutates the committed corner (it is committed only on
snap completion after release). -/
theorem C7_drag_tap_disambiguation :
    (∀ (s : PointerState) (dX dY rL rT : ℚ) (moves : List (ℚ × ℚ)) (wW wH rW rH : ℚ),
        (∀ m ∈ moves, (m.1 - dX) ^ 2 + (m.2 - dY) ^ 2 ≤ 100) →
        (runInteraction s 0 dX dY rL rT moves wW wH rW rH).tapCount = s.tapCount + 1
        ∧ (runInteraction s 0 dX dY rL rT moves wW wH rW rH).overlayCorner =
            s.overlayCorner)
    ∧ (∀ (s : PointerState) (dX dY rL rT : ℚ) (moves : List (ℚ × ℚ)) (wW wH rW rH : ℚ),
        (∃ m ∈ moves, 100 < (m.1 - dX) ^ 2 + (m.2 - dY) ^ 2) →
        (runInteraction s 0 dX dY rL rT moves wW wH rW rH).tapCount = s.tapCount)
    ∧ (∀ (s : PointerState) (x y : ℚ),
        (handlePointerMove s x y).overlayCorner = s.overlayCorner) := by
  refine ⟨?_, ?_, ?_⟩
  · intro s dX dY rL rT moves wW wH rW rH hsmall
    have hdown : handlePointerDown s 0 dX dY rL rT =
        { s with
          isDragging := true
          hasMoved := false
          dragStartX := dX
          dragStartY := dY
          elementStartX := rL
          elementStartY := rT } := by
      simp [handlePointerDown]
    have hrun : runMoves (handlePointerDown s 0 dX dY rL rT) moves =
        handlePointerDown s 0 dX dY rL rT := by
      rw [hdown]
      exact runMoves_all_small _ moves rfl hsmall
    unfold runInteraction
    rw [hrun, hdown]
    constructor <;> simp [handlePointerUp]
  · intro s dX dY rL rT moves wW wH rW rH hbig
    have hdown : handlePointerDown s 0 dX dY rL rT =
        { s with
          isDragging := true
          hasMoved := false
          dragStartX := dX
          dragStartY := dY
          elementStartX := rL
          elementStartY := rT } := by
      simp [handlePointerDown]
    have hlatch : (runMoves (handlePointerDown s 0 dX dY rL rT) moves).hasMoved = true := by
      rw [hdown]
      exact runMoves_latches _ moves rfl hbig
    have hpres := runMoves_preserved (handlePointerDown s 0 dX dY rL rT) moves
    have hdrag : (runMoves (handlePointerDown s 0 dX dY rL rT) moves).isDragging = true := by
      rw [hpres.1, hdown]
    have htap : (runMoves (handlePointerDown s 0 dX dY rL rT) moves).tapCount =
        s.tapCount := by
      rw [hpres.2.2.2.2, hdown]
    unfold runInteraction
    simp [handlePointerUp, hdrag, hlatch, htap]
  · intro s x y
    exact (handlePointerMove_keepDragging s x y).2.2.2.1

/-- Witness for C7 (amended): a 3-4-5 move of displacement 5 taps; a
20-pixel move drags; one concrete pointer-move leaves the corner alone. -/
theorem C7_drag_tap_disambiguation_witness :
    ((runInteraction pointerInit 0 0 0 0 0 [(3, 4)] 1000 1000 50 50).tapCount =
        pointerInit.tapCount + 1
      ∧ (runInteraction pointerInit 0 0 0 0 0 [(3, 4)] 1000 1000 50 50).overlayCorner =
          pointerInit.overlayCorner)
    ∧ (runInteraction pointerInit 0 0 0 0 0 [(20, 0)] 1000 1000 50 50).tapCount =
        pointerInit.tapCount
    ∧ (handlePointerMove pointerInit 5 5).overlayCorner = pointerInit.overlayCorner :=
  ⟨C7_drag_tap_disambiguation.1 pointerInit 0 0 0 0 [(3, 4)] 1000 1000 50 50
      (by intro m hm; simp only [List.mem_singleton] at hm; subst hm; norm_num),
   C7_drag_tap_disambiguation.2.1 pointerInit 0 0 0 0 [(20, 0)] 1000 1000 50 50
      ⟨(20, 0), by simp, by norm_num⟩,
   C7_drag_tap_disambiguation.2.2 pointerInit 5 5⟩

/-- C9 counterexample: with the view-transition primitive available but
the staging canvas element missing (`canvasElement` null),
`playCaptureAnimation` reveals the destination immediately and never
starts a transition — contradicting the claim that whenever the
primitive is available the reveal happens inside the transition's flip
callback after the paint-confirmation wait. -/
theorem C9_missing_canvas_counterexample :
    playCaptureAnimationEvents true false = [TransitionEv.reveal]
    ∧ TransitionEv.transitionStart ∉ playCaptureAnimationEvents true false := by
  constructor
  · rfl
  · decide

/-- C9 (amended): if the view-transition primitive is unavailable OR the
staging canvas element is missing, `playCaptureAnimation` invokes
`showDestination` immediately and returns; otherwise the staging surface
is prepared and shown, the paint-confirmation wait (`afterFrameAsync`)
completes, and only then is the transition started, whose flip callback
synchronously hides the staging surface and invokes `showDestination`;
in every case the reveal happens exactly once. -/
theorem C9_transition_orchestration (vt cp : Bool) :
    playCaptureAnimationEvents vt cp =
      (if vt && cp then
        [TransitionEv.stagePrepare, TransitionEv.stageShow, TransitionEv.paintWait,
          TransitionEv.transitionStart] ++ flipCallbackEvents ++
          [TransitionEv.transitionFinished, TransitionEv.stageCleanup]
       else [TransitionEv.reveal])
    ∧ (playCaptureAnimationEvents vt cp).count TransitionEv.reveal = 1
    ∧ flipCallbackEvents = [TransitionEv.stageHide, TransitionEv.reveal] := by
  cases vt <;> cases cp <;> exact ⟨rfl, rfl, rfl⟩
